import Mathlib

/-!
Verification of the LoanMatchMaker matching and ranking engine.

The definitions below are a shallow embedding of the Python sources
`data_generation.py` and `model_inference.py`.  Python ints are modelled
as `ℤ`, Python floats as `ℚ` (all arithmetic in the engine is exact
decimal arithmetic on small literals), Python strings as `String`,
Python lists as `List`, and Python dictionaries with a fixed key set as
structures.  Keys that are present only in some of the result
dictionaries are modelled as `Option` fields.  The trained neural
network together with its frozen feature scaler is out of scope of the
engine (it is the pluggable scorer of the spec); it is modelled as an
opaque parameter `p : List ℚ → ℚ` mapping a feature vector to a
probability.
-/

/-- Applicant profile, mirroring the dataclass `UserProfile` of
`data_generation.py` and the user-profile dictionary of
`model_inference.py`. -/
structure UserProfile where
  loanAmount : ℤ
  annualIncome : ℤ
  employmentStatus : String
  creditScore : ℤ
  loanPurpose : String
deriving Repr, DecidableEq

/-- Lender record, mirroring the dataclass `LenderData` of
`data_generation.py` (by default `loanPurpose` is the wildcard and
`specialEligibility` is `None`). -/
structure LenderData where
  id : ℤ
  name : String
  minLoanAmount : ℤ
  maxLoanAmount : ℤ
  minIncome : ℤ
  employmentTypes : List String
  minCreditScore : ℤ
  interestRate : ℚ
  loanPurpose : String := "any"
  specialEligibility : Option String := none
deriving Repr, DecidableEq

/-- Result of the five eligibility checks, mirroring the dictionary
returned by `check_eligibility` in both Python files. -/
structure EligibilityResult where
  loanAmountInRange : Bool
  incomeRequirement : Bool
  creditScoreRequirement : Bool
  employmentTypeMatch : Bool
  purposeMatch : Bool
deriving Repr, DecidableEq

/-- Conjunction of the five checks, mirroring the Python call
`all(eligibility.values())` at the two call sites. -/
def EligibilityResult.allChecks (e : EligibilityResult) : Bool :=
  e.loanAmountInRange && e.incomeRequirement && e.creditScoreRequirement &&
    e.employmentTypeMatch && e.purposeMatch

/-- Truthiness of the optional `specialEligibility` tag: Python treats
`None` and the empty string as falsy and any other string as truthy. -/
def optStrTruthy : Option String → Bool
  | none => false
  | some s => !(s == "")

namespace LoanDataGenerator

/-- Embedding of `LoanDataGenerator.check_eligibility` from
`data_generation.py`. -/
def check_eligibility (user : UserProfile) (lender : LenderData) : EligibilityResult where
  loanAmountInRange := decide (lender.minLoanAmount ≤ user.loanAmount ∧ user.loanAmount ≤ lender.maxLoanAmount)
  incomeRequirement := decide (user.annualIncome ≥ lender.minIncome)
  creditScoreRequirement := decide (user.creditScore ≥ lender.minCreditScore)
  employmentTypeMatch := decide ("any" ∈ lender.employmentTypes ∨ user.employmentStatus ∈ lender.employmentTypes)
  purposeMatch := decide (lender.loanPurpose = "any" ∨ lender.loanPurpose = user.loanPurpose)

/-- Embedding of `LoanDataGenerator.calculate_quality_score` from
`data_generation.py`.  The Python code accumulates `score` across four
blocks and adds 25 to `max_score` in every block; the accumulation is
rendered as sequential `let` bindings. -/
def calculate_quality_score (user : UserProfile) (lender : LenderData) : ℚ :=
  let avg_rate : ℚ := 21 / 2
  let s1 : ℚ := if lender.interestRate < avg_rate then 0 + 25 * (avg_rate - lender.interestRate) / avg_rate else 0
  let s2 : ℚ :=
    if lender.loanPurpose = user.loanPurpose then s1 + 25
    else if lender.loanPurpose = "any" then s1 + 10
    else s1
  let credit_buffer : ℤ := user.creditScore - lender.minCreditScore
  let s3 : ℚ :=
    if credit_buffer ≥ 100 then s2 + 25
    else if credit_buffer ≥ 50 then s2 + 20
    else if credit_buffer ≥ 20 then s2 + 15
    else if credit_buffer ≥ 0 then s2 + 10
    else s2
  let s4 : ℚ :=
    if lender.minIncome > 0 then
      let income_mult : ℚ := (user.annualIncome : ℚ) / (lender.minIncome : ℚ)
      if income_mult ≥ 3 then s3 + 25
      else if income_mult ≥ 2 then s3 + 20
      else if income_mult ≥ 3 / 2 then s3 + 15
      else if income_mult ≥ 1 then s3 + 10
      else s3
    else s3 + 15
  let max_score : ℚ := 25 + 25 + 25 + 25
  min 1 (s4 / max_score)

/-- Embedding of `LoanDataGenerator.determine_match_label` from
`data_generation.py`. -/
def determine_match_label (user : UserProfile) (lender : LenderData) : ℤ × ℚ :=
  let eligibility := check_eligibility user lender
  if !eligibility.allChecks then (0, 0)
  else
    let quality_score := calculate_quality_score user lender
    let is_good_match : ℤ := if quality_score ≥ 3 / 5 then 1 else 0
    (is_good_match, quality_score * 100)

/-- Embedding of `LoanDataGenerator.extract_features` from
`data_generation.py`: the ten-slot feature vector used at
label-generation time. -/
def extract_features (user : UserProfile) (lender : LenderData) : List ℚ :=
  [ min ((user.loanAmount : ℚ) / 1000000) 1,
    min ((user.annualIncome : ℚ) / 500000) 1,
    (user.creditScore : ℚ) / 850,
    lender.interestRate / 20,
    if "any" ∈ lender.employmentTypes ∨ user.employmentStatus ∈ lender.employmentTypes then 1 else 0,
    if lender.loanPurpose = "any" ∨ lender.loanPurpose = user.loanPurpose then 1 else 0,
    if optStrTruthy lender.specialEligibility then 1 else 0,
    (user.loanAmount : ℚ) / (lender.maxLoanAmount : ℚ),
    if lender.minIncome > 0 then (user.annualIncome : ℚ) / (lender.minIncome : ℚ) else 1,
    max 0 (((user.creditScore : ℚ) - (lender.minCreditScore : ℚ)) / 550) ]

end LoanDataGenerator

/-- One result dictionary of the inference engine
(`model_inference.py`).  The Python code builds plain dictionaries
whose key set differs between `predict_batch`, `rank_lenders` and
`predict_with_eligibility`; keys that are absent in some of them
(`rank`, `is_eligible`, `eligibility_details`, `explanation`) are
modelled as `Option` fields set to `none` where the dictionary lacks
the key. -/
structure MatchResult where
  lender_id : ℤ
  lender_name : String
  match_probability : ℚ
  is_good_match : Bool
  match_score : ℚ
  interest_rate : ℚ
  rank : Option ℕ := none
  is_eligible : Option Bool := none
  eligibility_details : Option EligibilityResult := none
  explanation : Option String := none
deriving Repr, DecidableEq

/-- Insert a result into a list that is already sorted by
`match_probability` descending, keeping it sorted and stable (the new
element goes before the first strictly smaller key). -/
def insDesc (r : MatchResult) : List MatchResult → List MatchResult
  | [] => [r]
  | x :: xs =>
      if x.match_probability ≤ r.match_probability then r :: x :: xs
      else x :: insDesc r xs

/-- Stable sort by `match_probability` descending.  This models the
Python call `results.sort(key=lambda x: x[...], reverse=True)`:
CPython's sort is stable and `reverse=True` reverses comparisons but
not the relative order of ties, so its output is uniquely determined
(sorted descending, ties in input order) and agrees with this stable
insertion sort. -/
def pySortDesc : List MatchResult → List MatchResult
  | [] => []
  | x :: xs => insDesc x (pySortDesc xs)

namespace LoanMatchingInference

/-- Embedding of `LoanMatchingInference.extract_features` from
`model_inference.py`: the ten-slot feature vector used at inference
time.  The Python code reads the same fields through dictionary access
(`.get` with a default only for keys the data model always provides). -/
def extract_features (user_profile : UserProfile) (lender_data : LenderData) : List ℚ :=
  [ min ((user_profile.loanAmount : ℚ) / 1000000) 1,
    min ((user_profile.annualIncome : ℚ) / 500000) 1,
    (user_profile.creditScore : ℚ) / 850,
    lender_data.interestRate / 20,
    if "any" ∈ lender_data.employmentTypes ∨ user_profile.employmentStatus ∈ lender_data.employmentTypes then 1 else 0,
    if lender_data.loanPurpose = "any" ∨ lender_data.loanPurpose = user_profile.loanPurpose then 1 else 0,
    if optStrTruthy lender_data.specialEligibility then 1 else 0,
    (user_profile.loanAmount : ℚ) / (lender_data.maxLoanAmount : ℚ),
    if lender_data.minIncome > 0 then (user_profile.annualIncome : ℚ) / (lender_data.minIncome : ℚ) else 1,
    max 0 (((user_profile.creditScore : ℚ) - (lender_data.minCreditScore : ℚ)) / 550) ]

/-- Embedding of `LoanMatchingInference.predict_single` from
`model_inference.py`.  The scaler transform followed by the network
forward pass is the opaque scorer `p` applied to the extracted feature
vector; the binary flag uses the threshold 0.5. -/
def predict_single (p : List ℚ → ℚ) (user_profile : UserProfile) (lender_data : LenderData) : ℚ × Bool :=
  let features := extract_features user_profile lender_data
  let probability := p features
  (probability, decide (probability > 1 / 2))

/-- One result dictionary built inside the loop of `predict_batch` in
`model_inference.py` (named here so the proofs can refer to it). -/
def batch_row (p : List ℚ → ℚ) (user_profile : UserProfile) (lender : LenderData) : MatchResult :=
  let pr := predict_single p user_profile lender
  { lender_id := lender.id
    lender_name := lender.name
    match_probability := pr.1
    is_good_match := pr.2
    match_score := pr.1 * 100
    interest_rate := lender.interestRate }

/-- Embedding of `LoanMatchingInference.predict_batch` from
`model_inference.py`: score every lender, then sort all results by
probability descending with Python's stable sort. -/
def predict_batch (p : List ℚ → ℚ) (user_profile : UserProfile) (lenders : List LenderData) : List MatchResult :=
  let results := lenders.map (batch_row p user_profile)
  pySortDesc results

/-- Embedding of `LoanMatchingInference._generate_explanation` from
`model_inference.py`.  The clause structure, evaluation order, join and
fallback string are kept; the two clauses that interpolate a number
into the text are abstracted to their fixed prefix, since no claim
depends on the formatted digits.  Python's `next(...)` raises when no
lender carries the result's id; that case cannot arise from the
engine's own call site and is modelled as the empty string. -/
def generate_explanation (result : MatchResult) (user_profile : UserProfile) (lenders : List LenderData) : String :=
  match lenders.find? (fun l => decide (l.id = result.lender_id)) with
  | none => ""
  | some lender =>
      let avg_rate : ℚ := 21 / 2
      let e1 : List String :=
        if lender.interestRate < avg_rate then [("Competitive interest rate")] else []
      let e2 : List String :=
        if lender.loanPurpose = user_profile.loanPurpose then e1 ++ [("Specializes in this loan purpose")]
        else if lender.loanPurpose = "any" then e1 ++ [("Offers flexible loan purposes")]
        else e1
      let credit_buffer : ℤ := user_profile.creditScore - lender.minCreditScore
      let e3 : List String :=
        if credit_buffer ≥ 100 then e2 ++ [("Strong credit profile for this lender")]
        else if credit_buffer ≥ 50 then e2 ++ [("Good credit fit")]
        else e2
      let e4 : List String :=
        if lender.minIncome > 0 then
          let income_mult : ℚ := (user_profile.annualIncome : ℚ) / (lender.minIncome : ℚ)
          if income_mult ≥ 2 then e3 ++ [("Income well exceeds minimum requirement")]
          else if income_mult ≥ 3 / 2 then e3 ++ [("Income comfortably meets requirement")]
          else e3
        else e3
      if e4.isEmpty then "Standard eligibility match" else String.intercalate ("; ") e4

/-- Rank and explanation attached to the result at position `ix.1` of
the truncated prediction list in `rank_lenders` (named here so the
proofs can refer to it). -/
def ranked_row (user_profile : UserProfile) (lenders : List LenderData)
    (ix : ℕ × MatchResult) : MatchResult :=
  { ix.2 with
      rank := some (ix.1 + 1)
      explanation := some (generate_explanation ix.2 user_profile lenders) }

/-- Embedding of `LoanMatchingInference.rank_lenders` from
`model_inference.py`: take the first `top_k` of the sorted predictions
and attach 1-based ranks and explanations (the Python parameter
defaults to 5; callers here always pass it). -/
def rank_lenders (p : List ℚ → ℚ) (user_profile : UserProfile) (lenders : List LenderData)
    (top_k : ℕ) : List MatchResult :=
  let predictions := predict_batch p user_profile lenders
  ((predictions.take top_k).enum).map (ranked_row user_profile lenders)

/-- Embedding of `LoanMatchingInference.check_eligibility` from
`model_inference.py` (same five checks as the synthesizer's version,
read through dictionary access). -/
def check_eligibility (user_profile : UserProfile) (lender_data : LenderData) : EligibilityResult where
  loanAmountInRange := decide (lender_data.minLoanAmount ≤ user_profile.loanAmount ∧ user_profile.loanAmount ≤ lender_data.maxLoanAmount)
  incomeRequirement := decide (user_profile.annualIncome ≥ lender_data.minIncome)
  creditScoreRequirement := decide (user_profile.creditScore ≥ lender_data.minCreditScore)
  employmentTypeMatch := decide ("any" ∈ lender_data.employmentTypes ∨ user_profile.employmentStatus ∈ lender_data.employmentTypes)
  purposeMatch := decide (lender_data.loanPurpose = "any" ∨ lender_data.loanPurpose = user_profile.loanPurpose)

/-- One result dictionary built inside the loop of
`predict_with_eligibility` in `model_inference.py` (named here so the
proofs can refer to it). -/
def eligibility_row (p : List ℚ → ℚ) (user_profile : UserProfile)
    (lender : LenderData) : MatchResult :=
  let eligibility := check_eligibility user_profile lender
  if eligibility.allChecks then
    let pr := predict_single p user_profile lender
    { lender_id := lender.id
      lender_name := lender.name
      match_probability := pr.1
      is_good_match := pr.2
      match_score := pr.1 * 100
      interest_rate := lender.interestRate
      is_eligible := some true
      eligibility_details := some eligibility }
  else
    { lender_id := lender.id
      lender_name := lender.name
      match_probability := 0
      is_good_match := false
      match_score := 0
      interest_rate := lender.interestRate
      is_eligible := some false
      eligibility_details := some eligibility }

/-- Embedding of `LoanMatchingInference.predict_with_eligibility` from
`model_inference.py`: score only the eligible lenders, emit zeroed
results for the ineligible ones, and return the eligible results
(sorted by probability descending) followed by the ineligible ones. -/
def predict_with_eligibility (p : List ℚ → ℚ) (user_profile : UserProfile)
    (lenders : List LenderData) : List MatchResult :=
  let results := lenders.map (eligibility_row p user_profile)
  let eligible_results := results.filter fun r => decide (r.is_eligible = some true)
  let ineligible_results := results.filter fun r => decide (¬ r.is_eligible = some true)
  pySortDesc eligible_results ++ ineligible_results

end LoanMatchingInference

/-- Rate-competitiveness component of the quality score (documented as
the first 25-point block of `calculate_quality_score`). -/
def rateComponent (lender : LenderData) : ℚ :=
  if lender.interestRate < 21 / 2 then 25 * (21 / 2 - lender.interestRate) / (21 / 2) else 0

/-- Purpose-specialization component of the quality score (second
25-point block of `calculate_quality_score`). -/
def purposeComponent (user : UserProfile) (lender : LenderData) : ℚ :=
  if lender.loanPurpose = user.loanPurpose then 25
  else if lender.loanPurpose = "any" then 10
  else 0

/-- Tiered credit-buffer points as a function of the buffer
`creditScore - minCreditScore` (third 25-point block of
`calculate_quality_score`). -/
def creditTier (b : ℤ) : ℚ :=
  if b ≥ 100 then 25
  else if b ≥ 50 then 20
  else if b ≥ 20 then 15
  else if b ≥ 0 then 10
  else 0

/-- Credit-buffer component of the quality score. -/
def creditComponent (user : UserProfile) (lender : LenderData) : ℚ :=
  creditTier (user.creditScore - lender.minCreditScore)

/-- Income-buffer component of the quality score (fourth 25-point
block of `calculate_quality_score`; fixed 15 when the lender has no
minimum income). -/
def incomeComponent (user : UserProfile) (lender : LenderData) : ℚ :=
  if lender.minIncome > 0 then
    let income_mult : ℚ := (user.annualIncome : ℚ) / (lender.minIncome : ℚ)
    if income_mult ≥ 3 then 25
    else if income_mult ≥ 2 then 20
    else if income_mult ≥ 3 / 2 then 15
    else if income_mult ≥ 1 then 10
    else 0
  else 15

/-- Quality score as the specification sentence of claim C2 words it:
the four components divided by the sum of the applicable maxima, where
the income-buffer maximum is said to drop to 15 when the lender has no
minimum income.  This definition follows the claim text, not the
source, and is compared against `calculate_quality_score`. -/
def claim_quality_score (user : UserProfile) (lender : LenderData) : ℚ :=
  let denom : ℚ := 25 + 25 + 25 + (if lender.minIncome = 0 then 15 else 25)
  min 1 ((rateComponent lender + purposeComponent user lender +
          creditComponent user lender + incomeComponent user lender) / denom)

/-- The five eligibility facts as propositions, the specification-level
reading of the eligibility gate. -/
def EligiblePair (user : UserProfile) (lender : LenderData) : Prop :=
  lender.minLoanAmount ≤ user.loanAmount ∧ user.loanAmount ≤ lender.maxLoanAmount ∧
  lender.minIncome ≤ user.annualIncome ∧ lender.minCreditScore ≤ user.creditScore ∧
  ("any" ∈ lender.employmentTypes ∨ user.employmentStatus ∈ lender.employmentTypes) ∧
  (lender.loanPurpose = "any" ∨ lender.loanPurpose = user.loanPurpose)

instance (user : UserProfile) (lender : LenderData) : Decidable (EligiblePair user lender) := by
  unfold EligiblePair
  infer_instance

theorem check_eligibility_agree (user : UserProfile) (lender : LenderData) :
    LoanMatchingInference.check_eligibility user lender =
      LoanDataGenerator.check_eligibility user lender := rfl

theorem allChecks_iff_eligible (user : UserProfile) (lender : LenderData) :
    (LoanDataGenerator.check_eligibility user lender).allChecks = true ↔
      EligiblePair user lender := by
  simp only [LoanDataGenerator.check_eligibility, EligibilityResult.allChecks, EligiblePair,
    Bool.and_eq_true, decide_eq_true_eq, ge_iff_le, and_assoc]

theorem rate_acc (lender : LenderData) :
    (if lender.interestRate < 21 / 2 then
       0 + 25 * (21 / 2 - lender.interestRate) / (21 / 2) else (0 : ℚ)) =
      rateComponent lender := by
  unfold rateComponent
  split_ifs <;> ring

theorem purpose_acc (user : UserProfile) (lender : LenderData) (s : ℚ) :
    (if lender.loanPurpose = user.loanPurpose then s + 25
     else if lender.loanPurpose = "any" then s + 10
     else s) = s + purposeComponent user lender := by
  unfold purposeComponent
  split_ifs <;> ring

theorem credit_acc (b : ℤ) (s : ℚ) :
    (if b ≥ 100 then s + 25
     else if b ≥ 50 then s + 20
     else if b ≥ 20 then s + 15
     else if b ≥ 0 then s + 10
     else s) = s + creditTier b := by
  unfold creditTier
  split_ifs <;> ring

theorem income_acc (user : UserProfile) (lender : LenderData) (s : ℚ) :
    (if lender.minIncome > 0 then
       if (user.annualIncome : ℚ) / (lender.minIncome : ℚ) ≥ 3 then s + 25
       else if (user.annualIncome : ℚ) / (lender.minIncome : ℚ) ≥ 2 then s + 20
       else if (user.annualIncome : ℚ) / (lender.minIncome : ℚ) ≥ 3 / 2 then s + 15
       else if (user.annualIncome : ℚ) / (lender.minIncome : ℚ) ≥ 1 then s + 10
       else s
     else s + 15) = s + incomeComponent user lender := by
  simp only [incomeComponent]
  split_ifs <;> ring

theorem quality_score_decomp (user : UserProfile) (lender : LenderData) :
    LoanDataGenerator.calculate_quality_score user lender =
      min 1 ((rateComponent lender + purposeComponent user lender +
              creditComponent user lender + incomeComponent user lender) / 100) := by
  simp only [LoanDataGenerator.calculate_quality_score]
  rw [rate_acc, purpose_acc, credit_acc, income_acc]
  exact congrArg (min 1) (by unfold creditComponent; ring)

theorem insDesc_perm (r : MatchResult) (xs : List MatchResult) :
    (insDesc r xs).Perm (r :: xs) := by
  induction xs with
  | nil => exact List.Perm.refl _
  | cons x xs ih =>
      unfold insDesc
      split
      · exact List.Perm.refl _
      · exact (List.Perm.cons x ih).trans (List.Perm.swap r x xs)

theorem pySortDesc_perm (l : List MatchResult) : (pySortDesc l).Perm l := by
  induction l with
  | nil => exact List.Perm.refl _
  | cons x xs ih => exact (insDesc_perm x (pySortDesc xs)).trans (List.Perm.cons x ih)

theorem insDesc_pairwise (r : MatchResult) (xs : List MatchResult)
    (h : xs.Pairwise fun a b => b.match_probability ≤ a.match_probability) :
    (insDesc r xs).Pairwise fun a b => b.match_probability ≤ a.match_probability := by
  induction xs with
  | nil => simp [insDesc]
  | cons x xs ih =>
      rw [List.pairwise_cons] at h
      obtain ⟨hx, hxs⟩ := h
      unfold insDesc
      split
      · rename_i hle
        refine List.Pairwise.cons ?_ (List.Pairwise.cons hx hxs)
        intro y hy
        rcases List.mem_cons.mp hy with rfl | hy
        · exact hle
        · exact le_trans (hx y hy) hle
      · rename_i hlt
        refine List.Pairwise.cons ?_ (ih hxs)
        intro y hy
        rcases List.mem_cons.mp ((insDesc_perm r xs).mem_iff.mp hy) with rfl | hy2
        · exact le_of_lt (lt_of_not_le hlt)
        · exact hx y hy2

theorem pySortDesc_pairwise (l : List MatchResult) :
    (pySortDesc l).Pairwise fun a b => b.match_probability ≤ a.match_probability := by
  induction l with
  | nil => simp [pySortDesc]
  | cons x xs ih => exact insDesc_pairwise x (pySortDesc xs) ih

theorem rateComponent_nonneg (lender : LenderData) : 0 ≤ rateComponent lender := by
  unfold rateComponent
  split_ifs with h
  · have : (0 : ℚ) ≤ 21 / 2 - lender.interestRate := by linarith
    positivity
  · exact le_refl 0

theorem purposeComponent_nonneg (user : UserProfile) (lender : LenderData) :
    0 ≤ purposeComponent user lender := by
  unfold purposeComponent
  split_ifs <;> norm_num

theorem creditTier_nonneg (b : ℤ) : 0 ≤ creditTier b := by
  unfold creditTier
  split_ifs <;> norm_num

theorem incomeComponent_nonneg (user : UserProfile) (lender : LenderData) :
    0 ≤ incomeComponent user lender := by
  simp only [incomeComponent]
  split_ifs <;> norm_num

/-- Applicant of the spec's student scenario (section 8 of the spec). -/
def exStudent : UserProfile where
  loanAmount := 15000
  annualIncome := 0
  employmentStatus := "student"
  creditScore := 600
  loanPurpose := "education"

/-- Variant of the student applicant with a higher credit score. -/
def exStudent700 : UserProfile :=
  { exStudent with creditScore := 700 }

/-- Lender 3 of the catalog in `data_generation.py`. -/
def exEduFinance : LenderData where
  id := 3
  name := "EduFinance"
  minLoanAmount := 10000
  maxLoanAmount := 200000
  minIncome := 0
  employmentTypes := ["student"]
  minCreditScore := 0
  interestRate := 13 / 2
  loanPurpose := "education"

/-- Lender 2 of the catalog in `data_generation.py`. -/
def exHomeFund : LenderData where
  id := 2
  name := "HomeFund Bank"
  minLoanAmount := 50000
  maxLoanAmount := 500000
  minIncome := 50000
  employmentTypes := ["salaried"]
  minCreditScore := 700
  interestRate := 89 / 10
  loanPurpose := "home"

/-- C1: the feature extraction used at label-generation time and the
feature extraction used at inference time return exactly equal
10-element feature vectors on every applicant and lender pair. -/
theorem feature_extraction_paths_agree (user : UserProfile) (lender : LenderData) :
    LoanDataGenerator.extract_features user lender =
      LoanMatchingInference.extract_features user lender ∧
    (LoanDataGenerator.extract_features user lender).length = 10 :=
  ⟨rfl, rfl⟩

/-- C5: a pair is eligible exactly when all five facts hold, each
stated with a non-strict inequality so that boundary equalities pass;
the synthesizer's and the inference engine's eligibility checks agree
on every input. -/
theorem eligibility_iff_five_facts (user : UserProfile) (lender : LenderData) :
    ((LoanDataGenerator.check_eligibility user lender).allChecks = true ↔
      (lender.minLoanAmount ≤ user.loanAmount ∧ user.loanAmount ≤ lender.maxLoanAmount ∧
       lender.minIncome ≤ user.annualIncome ∧ lender.minCreditScore ≤ user.creditScore ∧
       ("any" ∈ lender.employmentTypes ∨ user.employmentStatus ∈ lender.employmentTypes) ∧
       (lender.loanPurpose = "any" ∨ lender.loanPurpose = user.loanPurpose))) ∧
    LoanMatchingInference.check_eligibility user lender =
      LoanDataGenerator.check_eligibility user lender :=
  ⟨allChecks_iff_eligible user lender, rfl⟩

/-- C5 applied to the student scenario, where eligibility holds with
the income check and the credit check exactly at their boundaries. -/
theorem eligibility_iff_five_facts_witness :
    ((LoanDataGenerator.check_eligibility exStudent exEduFinance).allChecks = true ↔
      (exEduFinance.minLoanAmount ≤ exStudent.loanAmount ∧
       exStudent.loanAmount ≤ exEduFinance.maxLoanAmount ∧
       exEduFinance.minIncome ≤ exStudent.annualIncome ∧
       exEduFinance.minCreditScore ≤ exStudent.creditScore ∧
       ("any" ∈ exEduFinance.employmentTypes ∨ exStudent.employmentStatus ∈ exEduFinance.employmentTypes) ∧
       (exEduFinance.loanPurpose = "any" ∨ exEduFinance.loanPurpose = exStudent.loanPurpose))) ∧
    LoanMatchingInference.check_eligibility exStudent exEduFinance =
      LoanDataGenerator.check_eligibility exStudent exEduFinance :=
  eligibility_iff_five_facts exStudent exEduFinance

/-- C6: the synthesizer's labeling returns label 0 and score 0 whenever
one of the five eligibility facts fails, and on eligible pairs returns
label 1 exactly when the quality score reaches 0.6, with the continuous
score equal to the quality score times 100. -/
theorem match_label_spec (user : UserProfile) (lender : LenderData) :
    (¬ EligiblePair user lender →
       LoanDataGenerator.determine_match_label user lender = (0, 0)) ∧
    (EligiblePair user lender →
       ((LoanDataGenerator.determine_match_label user lender).1 = 1 ↔
          3 / 5 ≤ LoanDataGenerator.calculate_quality_score user lender) ∧
       (LoanDataGenerator.determine_match_label user lender).2 =
         LoanDataGenerator.calculate_quality_score user lender * 100) := by
  constructor
  · intro h
    have hb : (LoanDataGenerator.check_eligibility user lender).allChecks = false := by
      rw [← Bool.not_eq_true]
      exact fun hc => h ((allChecks_iff_eligible user lender).mp hc)
    simp [LoanDataGenerator.determine_match_label, hb]
  · intro h
    have hb : (LoanDataGenerator.check_eligibility user lender).allChecks = true :=
      (allChecks_iff_eligible user lender).mpr h
    refine ⟨?_, ?_⟩
    · simp only [LoanDataGenerator.determine_match_label, hb, Bool.not_true,
        Bool.false_eq_true, if_false, ge_iff_le]
      split_ifs with hq
      · exact iff_of_true rfl hq
      · exact iff_of_false (by norm_num) hq
    · simp [LoanDataGenerator.determine_match_label, hb]

/-- C6 applied to two concrete pairs: the student is ineligible for
HomeFund and eligible for EduFinance. -/
theorem match_label_spec_witness :
    LoanDataGenerator.determine_match_label exStudent exHomeFund = (0, 0) ∧
    (((LoanDataGenerator.determine_match_label exStudent exEduFinance).1 = 1 ↔
        3 / 5 ≤ LoanDataGenerator.calculate_quality_score exStudent exEduFinance) ∧
      (LoanDataGenerator.determine_match_label exStudent exEduFinance).2 =
        LoanDataGenerator.calculate_quality_score exStudent exEduFinance * 100) :=
  ⟨(match_label_spec exStudent exHomeFund).1 (by decide),
   (match_label_spec exStudent exEduFinance).2 (by decide)⟩

/-- C2 as stated is false: the claim's normalization, whose denominator
drops to 85 when the lender has no minimum income, disagrees with the
code on the eligible student and EduFinance pair (the code always
divides by 100). -/
theorem quality_score_claim_counterexample :
    (LoanDataGenerator.check_eligibility exStudent exEduFinance).allChecks = true ∧
    exEduFinance.minIncome = 0 ∧
    LoanDataGenerator.calculate_quality_score exStudent exEduFinance = 313 / 420 ∧
    claim_quality_score exStudent exEduFinance = 313 / 378 ∧
    (313 / 420 : ℚ) ≠ 313 / 378 := by
  refine ⟨by decide, rfl, ?_, ?_, by norm_num⟩
  · rw [quality_score_decomp]
    norm_num [rateComponent, purposeComponent, creditComponent, creditTier,
      incomeComponent, exStudent, exEduFinance, min_def]
  · norm_num [claim_quality_score, rateComponent, purposeComponent, creditComponent,
      creditTier, incomeComponent, exStudent, exEduFinance, min_def]

theorem rateComponent_congr (l l' : LenderData) (h : l.interestRate = l'.interestRate) :
    rateComponent l = rateComponent l' := by
  unfold rateComponent
  rw [h]

theorem purposeComponent_congr (u u' : UserProfile) (l l' : LenderData)
    (hu : u.loanPurpose = u'.loanPurpose) (hl : l.loanPurpose = l'.loanPurpose) :
    purposeComponent u l = purposeComponent u' l' := by
  unfold purposeComponent
  rw [hu, hl]

theorem incomeComponent_congr (u u' : UserProfile) (l l' : LenderData)
    (hu : u.annualIncome = u'.annualIncome) (hl : l.minIncome = l'.minIncome) :
    incomeComponent u l = incomeComponent u' l' := by
  simp only [incomeComponent]
  rw [hu, hl]

theorem creditTier_mono {b b' : ℤ} (h : b ≤ b') : creditTier b ≤ creditTier b' := by
  unfold creditTier
  split_ifs <;> first | omega | norm_num | (exfalso; omega)

/-- C8: on eligible pairs the quality score lies in the unit interval,
and with every other applicant and lender field fixed it is
non-decreasing in the credit buffer. -/
theorem quality_score_range_and_monotone (u u' : UserProfile) (l l' : LenderData) :
    (EligiblePair u l →
       0 ≤ LoanDataGenerator.calculate_quality_score u l ∧
       LoanDataGenerator.calculate_quality_score u l ≤ 1) ∧
    (EligiblePair u l → EligiblePair u' l' →
       u.annualIncome = u'.annualIncome → u.loanPurpose = u'.loanPurpose →
       l.interestRate = l'.interestRate → l.loanPurpose = l'.loanPurpose →
       l.minIncome = l'.minIncome →
       u.creditScore - l.minCreditScore ≤ u'.creditScore - l'.minCreditScore →
       LoanDataGenerator.calculate_quality_score u l ≤
         LoanDataGenerator.calculate_quality_score u' l') := by
  constructor
  · intro _
    rw [quality_score_decomp]
    have h1 := rateComponent_nonneg l
    have h2 := purposeComponent_nonneg u l
    have h3 := creditTier_nonneg (u.creditScore - l.minCreditScore)
    have h4 := incomeComponent_nonneg u l
    constructor
    · refine le_min (by norm_num) (div_nonneg ?_ (by norm_num))
      unfold creditComponent
      linarith
    · exact min_le_left _ _
  · intro _ _ hA hP hR hLP hMI hbuf
    rw [quality_score_decomp, quality_score_decomp,
      rateComponent_congr l l' hR, purposeComponent_congr u u' l l' hP hLP,
      incomeComponent_congr u u' l l' hA hMI]
    have hc : creditComponent u l ≤ creditComponent u' l' := creditTier_mono hbuf
    refine min_le_min le_rfl ?_
    gcongr

/-- C8 applied to the student pair and its variant with a credit score
raised from 600 to 700, other fields unchanged. -/
theorem quality_score_range_and_monotone_witness :
    (0 ≤ LoanDataGenerator.calculate_quality_score exStudent exEduFinance ∧
     LoanDataGenerator.calculate_quality_score exStudent exEduFinance ≤ 1) ∧
    LoanDataGenerator.calculate_quality_score exStudent exEduFinance ≤
      LoanDataGenerator.calculate_quality_score exStudent700 exEduFinance :=
  ⟨(quality_score_range_and_monotone exStudent exStudent700 exEduFinance exEduFinance).1
     (by decide),
   (quality_score_range_and_monotone exStudent exStudent700 exEduFinance exEduFinance).2
     (by decide) (by decide) rfl rfl rfl rfl rfl (by decide)⟩

/-- C10: eligibility forces at least 10 credit-buffer points and at
least 10 income-buffer points (15 when the lender has no minimum
income), so the quality score is at least 0.2 and the continuous match
score returned by the labeler is at least 20. -/
theorem eligible_score_at_least_point_two (user : UserProfile) (lender : LenderData)
    (h : EligiblePair user lender) :
    10 ≤ creditComponent user lender ∧
    (if lender.minIncome = 0 then (15 : ℚ) else 10) ≤ incomeComponent user lender ∧
    1 / 5 ≤ LoanDataGenerator.calculate_quality_score user lender ∧
    20 ≤ (LoanDataGenerator.determine_match_label user lender).2 := by
  obtain ⟨h1, h2, hinc, hcs, h5, h6⟩ := h
  have hcredit : 10 ≤ creditComponent user lender := by
    unfold creditComponent creditTier
    split_ifs <;> first | omega | norm_num | (exfalso; omega)
  have hincome : (if lender.minIncome = 0 then (15 : ℚ) else 10) ≤
      incomeComponent user lender := by
    by_cases h0 : lender.minIncome = 0
    · simp [h0, incomeComponent]
    · rw [if_neg h0]
      by_cases hpos : lender.minIncome > 0
      · have hone : (1 : ℚ) ≤ (user.annualIncome : ℚ) / (lender.minIncome : ℚ) := by
          rw [le_div_iff (by exact_mod_cast hpos)]
          rw [one_mul]
          exact_mod_cast hinc
        simp only [incomeComponent, if_pos hpos]
        split_ifs <;> first | norm_num | linarith
      · simp only [incomeComponent, if_neg hpos]
        norm_num
  have h10i : (10 : ℚ) ≤ incomeComponent user lender := by
    by_cases h0 : lender.minIncome = 0
    · rw [if_pos h0] at hincome
      linarith
    · rw [if_neg h0] at hincome
      linarith
  have hscore : 1 / 5 ≤ LoanDataGenerator.calculate_quality_score user lender := by
    rw [quality_score_decomp]
    refine le_min (by norm_num) ?_
    rw [le_div_iff (by norm_num)]
    have hr := rateComponent_nonneg lender
    have hp := purposeComponent_nonneg user lender
    linarith
  refine ⟨hcredit, hincome, hscore, ?_⟩
  have hb : (LoanDataGenerator.check_eligibility user lender).allChecks = true :=
    (allChecks_iff_eligible user lender).mpr ⟨h1, h2, hinc, hcs, h5, h6⟩
  have hm : (LoanDataGenerator.determine_match_label user lender).2 =
      LoanDataGenerator.calculate_quality_score user lender * 100 := by
    simp [LoanDataGenerator.determine_match_label, hb]
  rw [hm]
  linarith

/-- C10 applied to the student and EduFinance pair. -/
theorem eligible_score_at_least_point_two_witness :
    10 ≤ creditComponent exStudent exEduFinance ∧
    (if exEduFinance.minIncome = 0 then (15 : ℚ) else 10) ≤
      incomeComponent exStudent exEduFinance ∧
    1 / 5 ≤ LoanDataGenerator.calculate_quality_score exStudent exEduFinance ∧
    20 ≤ (LoanDataGenerator.determine_match_label exStudent exEduFinance).2 :=
  eligible_score_at_least_point_two exStudent exEduFinance (by decide)

/-- Division that reports a zero denominator instead of defaulting,
used to state that every division of the vectorizer is guarded. -/
def guardedDiv (a b : ℚ) : Option ℚ :=
  if b = 0 then none else some (a / b)

/-- The feature vectorizer with every division routed through
`guardedDiv`: it returns `none` exactly when some executed division
has a zero denominator. -/
def extract_features_checked (user : UserProfile) (lender : LenderData) : Option (List ℚ) :=
  (guardedDiv (user.loanAmount : ℚ) 1000000).bind fun d1 =>
  (guardedDiv (user.annualIncome : ℚ) 500000).bind fun d2 =>
  (guardedDiv (user.creditScore : ℚ) 850).bind fun d3 =>
  (guardedDiv lender.interestRate 20).bind fun d4 =>
  (guardedDiv (user.loanAmount : ℚ) (lender.maxLoanAmount : ℚ)).bind fun d8 =>
  (if lender.minIncome > 0 then
     guardedDiv (user.annualIncome : ℚ) (lender.minIncome : ℚ)
   else some 1).bind fun d9 =>
  (guardedDiv ((user.creditScore : ℚ) - (lender.minCreditScore : ℚ)) 550).bind fun d10 =>
  some [ min d1 1, min d2 1, d3, d4,
         if "any" ∈ lender.employmentTypes ∨ user.employmentStatus ∈ lender.employmentTypes then 1 else 0,
         if lender.loanPurpose = "any" ∨ lender.loanPurpose = user.loanPurpose then 1 else 0,
         if optStrTruthy lender.specialEligibility then 1 else 0,
         d8, d9, max 0 d10 ]

/-- C9: on every lender with positive maximum loan amount and
non-negative minimum income the vectorizer is total (its fully guarded
variant succeeds and returns the same vector), and when the minimum
income is zero slot 9 (index 8) is the substituted constant 1 instead
of a division. -/
theorem vectorizer_total (user : UserProfile) (lender : LenderData)
    (hmax : 0 < lender.maxLoanAmount) (hmin : 0 ≤ lender.minIncome) :
    extract_features_checked user lender =
      some (LoanMatchingInference.extract_features user lender) ∧
    (lender.minIncome = 0 →
      (LoanMatchingInference.extract_features user lender).get? 8 = some 1) := by
  have hmaxq : (lender.maxLoanAmount : ℚ) ≠ 0 := by
    exact_mod_cast hmax.ne'
  constructor
  · by_cases hmi : lender.minIncome > 0
    · have hminq : (lender.minIncome : ℚ) ≠ 0 := by
        exact_mod_cast hmi.ne'
      simp [extract_features_checked, guardedDiv, LoanMatchingInference.extract_features,
        hmi, hmaxq, hminq]
    · simp [extract_features_checked, guardedDiv, LoanMatchingInference.extract_features,
        hmi, hmaxq]
  · intro h0
    simp [LoanMatchingInference.extract_features, h0]

/-- C9 applied to the student and EduFinance pair, whose lender has
maximum loan amount 200000 and minimum income 0. -/
theorem vectorizer_total_witness :
    extract_features_checked exStudent exEduFinance =
      some (LoanMatchingInference.extract_features exStudent exEduFinance) ∧
    (exEduFinance.minIncome = 0 →
      (LoanMatchingInference.extract_features exStudent exEduFinance).get? 8 = some 1) :=
  vectorizer_total exStudent exEduFinance (by decide) (by decide)

/-- C2 amended: the quality score is the sum of the four components
divided by 100 (the four 25-point maxima; the denominator stays 100
even when the lender has no minimum income), clamped to at most 1. -/
theorem quality_score_normalized_by_100 (user : UserProfile) (lender : LenderData) :
    LoanDataGenerator.calculate_quality_score user lender =
      min 1 ((rateComponent lender + purposeComponent user lender +
              creditComponent user lender + incomeComponent user lender) / 100) :=
  quality_score_decomp user lender

/-- Scorer that returns probability 1 for every feature vector, used as
the pluggable scorer in the counterexamples. -/
def constScorer : List ℚ → ℚ := fun _ => 1

/-- First of two lenders that differ only in id and name. -/
def exTieA : LenderData where
  id := 1
  name := "TieA"
  minLoanAmount := 1000
  maxLoanAmount := 50000
  minIncome := 0
  employmentTypes := ["student"]
  minCreditScore := 0
  interestRate := 10
  loanPurpose := "education"

/-- Second of the two lenders, identical to the first except for id
and name. -/
def exTieB : LenderData :=
  { exTieA with id := 2, name := "TieB" }

theorem predict_batch_length (p : List ℚ → ℚ) (user : UserProfile)
    (lenders : List LenderData) :
    (LoanMatchingInference.predict_batch p user lenders).length = lenders.length := by
  simp only [LoanMatchingInference.predict_batch]
  rw [(pySortDesc_perm _).length_eq, List.length_map]

/-- C3 as stated is false: with a scorer that ties both lenders at
probability 1, the two orderings of the same two-lender list produce
different output sequences — ties keep the input order instead of
being broken by ascending lender id. -/
theorem rank_order_dependence_counterexample :
    ((LoanMatchingInference.predict_batch constScorer exStudent [exTieA, exTieB]).map
        MatchResult.match_probability =
      (LoanMatchingInference.predict_batch constScorer exStudent [exTieB, exTieA]).map
        MatchResult.match_probability) ∧
    ((LoanMatchingInference.predict_batch constScorer exStudent [exTieA, exTieB]).map
        MatchResult.lender_id = [1, 2]) ∧
    ((LoanMatchingInference.predict_batch constScorer exStudent [exTieB, exTieA]).map
        MatchResult.lender_id = [2, 1]) ∧
    ((LoanMatchingInference.rank_lenders constScorer exStudent [exTieB, exTieA] 5).map
        MatchResult.lender_id = [2, 1]) :=
  ⟨rfl, rfl, rfl, rfl⟩

/-- C3 amended: `predict_batch` outputs one result per input lender,
sorted by probability descending; the sort is stable, so results with
equal probabilities keep the order of the input lender list (they are
not reordered by lender id, and the output order of ties depends on
the input order). -/
theorem rank_sorted_desc_and_perm (p : List ℚ → ℚ) (user : UserProfile)
    (lenders : List LenderData) :
    (LoanMatchingInference.predict_batch p user lenders).Pairwise
      (fun a b => b.match_probability ≤ a.match_probability) ∧
    ((LoanMatchingInference.predict_batch p user lenders).map
        MatchResult.lender_id).Perm (lenders.map LenderData.id) := by
  constructor
  · exact pySortDesc_pairwise (lenders.map (LoanMatchingInference.batch_row p user))
  · have h := (pySortDesc_perm
      (lenders.map (LoanMatchingInference.batch_row p user))).map MatchResult.lender_id
    have h2 : (lenders.map (LoanMatchingInference.batch_row p user)).map
        MatchResult.lender_id = lenders.map LenderData.id := by
      rw [List.map_map]
      rfl
    rw [h2] at h
    exact h

/-- C4 as stated is false: `rank_lenders` never checks eligibility, so
an ineligible lender can come back carrying the scorer's probability
(here 1, not 0) and rank 1. -/
theorem rank_lenders_no_eligibility_counterexample :
    (LoanMatchingInference.check_eligibility exStudent exHomeFund).allChecks = false ∧
    ((LoanMatchingInference.rank_lenders constScorer exStudent [exHomeFund] 5).map
        (fun r => (r.lender_id, r.match_probability, r.rank)) = [(2, 1, some 1)]) :=
  ⟨rfl, rfl⟩

/-- C4 amended: `rank_lenders` does no eligibility filtering.  It
returns exactly the first `top_k` entries of the probability-sorted
predictions over all lenders, eligible or not, assigning ranks 1..N in
order and truncating to `top_k`. -/
theorem rank_lenders_truncates_and_ranks (p : List ℚ → ℚ) (user : UserProfile)
    (lenders : List LenderData) (top_k : ℕ) :
    (LoanMatchingInference.rank_lenders p user lenders top_k).length =
      min top_k lenders.length ∧
    (LoanMatchingInference.rank_lenders p user lenders top_k).map MatchResult.rank =
      (List.range (min top_k lenders.length)).map (fun i => some (i + 1)) ∧
    (LoanMatchingInference.rank_lenders p user lenders top_k).map MatchResult.lender_id =
      ((LoanMatchingInference.predict_batch p user lenders).take top_k).map
        MatchResult.lender_id := by
  have hlen : ((LoanMatchingInference.predict_batch p user lenders).take top_k).length =
      min top_k lenders.length := by
    rw [List.length_take, predict_batch_length]
  refine ⟨?_, ?_, ?_⟩
  · simp only [LoanMatchingInference.rank_lenders]
    rw [List.length_map, List.enum_length, hlen]
  · simp only [LoanMatchingInference.rank_lenders]
    rw [List.map_map]
    have hcomp : (MatchResult.rank ∘ LoanMatchingInference.ranked_row user lenders) =
        ((fun i => some (i + 1)) ∘ Prod.fst) := rfl
    rw [hcomp, ← List.map_map, List.enum_map_fst, hlen]
  · simp only [LoanMatchingInference.rank_lenders]
    rw [List.map_map]
    have hcomp : (MatchResult.lender_id ∘ LoanMatchingInference.ranked_row user lenders) =
        (MatchResult.lender_id ∘ Prod.snd) := rfl
    rw [hcomp, ← List.map_map, List.enum_map_snd]

/-- Case split on the row built by `predict_with_eligibility`: it is
marked eligible, or it is marked ineligible and carries probability 0
and no rank. -/
theorem eligibility_row_cases (p : List ℚ → ℚ) (user : UserProfile) (lender : LenderData) :
    (LoanMatchingInference.eligibility_row p user lender).is_eligible = some true ∨
    ((LoanMatchingInference.eligibility_row p user lender).is_eligible = some false ∧
     (LoanMatchingInference.eligibility_row p user lender).match_probability = 0 ∧
     (LoanMatchingInference.eligibility_row p user lender).rank = none) := by
  simp only [LoanMatchingInference.eligibility_row]
  split
  · exact Or.inl rfl
  · exact Or.inr ⟨rfl, rfl, rfl⟩

/-- C7: the unbounded eligibility-aware call returns all eligible
results before all ineligible results, and every ineligible result
carries probability 0 and no rank. -/
theorem eligible_precede_ineligible (p : List ℚ → ℚ) (user : UserProfile)
    (lenders : List LenderData) :
    (∃ front back,
        LoanMatchingInference.predict_with_eligibility p user lenders = front ++ back ∧
        (∀ r ∈ front, r.is_eligible = some true) ∧
        (∀ r ∈ back, r.is_eligible = some false)) ∧
    (∀ r ∈ LoanMatchingInference.predict_with_eligibility p user lenders,
        r.is_eligible = some false → r.match_probability = 0 ∧ r.rank = none) := by
  have hd : LoanMatchingInference.predict_with_eligibility p user lenders =
      pySortDesc ((lenders.map (LoanMatchingInference.eligibility_row p user)).filter
        fun r => decide (r.is_eligible = some true)) ++
      ((lenders.map (LoanMatchingInference.eligibility_row p user)).filter
        fun r => decide (¬ r.is_eligible = some true)) := rfl
  constructor
  · refine ⟨_, _, hd, ?_, ?_⟩
    · intro r hr
      have hr2 := (pySortDesc_perm _).mem_iff.mp hr
      exact of_decide_eq_true (List.mem_filter.mp hr2).2
    · intro r hr
      have h3 := of_decide_eq_true (List.mem_filter.mp hr).2
      obtain ⟨lender, _, rfl⟩ := List.mem_map.mp (List.mem_filter.mp hr).1
      rcases eligibility_row_cases p user lender with hc | hc
      · exact absurd hc h3
      · exact hc.1
  · intro r hr hfalse
    rw [hd] at hr
    rcases List.mem_append.mp hr with h | h
    · have htrue := of_decide_eq_true
        (List.mem_filter.mp ((pySortDesc_perm _).mem_iff.mp h)).2
      rw [hfalse] at htrue
      cases htrue
    · obtain ⟨lender, _, rfl⟩ := List.mem_map.mp (List.mem_filter.mp h).1
      rcases eligibility_row_cases p user lender with hc | hc
      · rw [hfalse] at hc
        cases hc
      · exact ⟨hc.2.1, hc.2.2⟩

/-- C7 applied to the student and the list containing only HomeFund,
for which the student is ineligible. -/
theorem eligible_precede_ineligible_witness :
    (LoanMatchingInference.eligibility_row constScorer exStudent exHomeFund).match_probability = 0 ∧
    (LoanMatchingInference.eligibility_row constScorer exStudent exHomeFund).rank = none :=
  (eligible_precede_ineligible constScorer exStudent [exHomeFund]).2
    (LoanMatchingInference.eligibility_row constScorer exStudent exHomeFund)
    (List.mem_singleton_self _) (by decide)
